import Mathlib

/-!
A shallow embedding of the core of `src/app.py` (a Streamlit hotel-request
intake form with a results-polling view backed by a hosted store), together
with theorems settling the frozen claims about it.

Conventions of the embedding:
* Python machine time is abstracted to `Nat` ticks; the poll loop advances the
  clock by `poll_interval` per iteration (queries are instantaneous).
* Calendar dates are abstracted to `Nat` ordinals (only their order matters).
* Store interactions are passed in as explicit functions / values; the
  embedding records the calls a component makes as explicit data.
* Python ratings are `float`; they are embedded as `ℚ` (`none` standing for an
  input on which `float()` raises), which is exact on every rating the program
  manipulates and preserves truncation/comparison semantics.
-/

namespace HotelForm

/-! ## Validation module (src/app.py lines 64-105) -/

/-- The fixed canonical brand list (src/app.py `CANONICAL_BRANDS`, lines 64-69). -/
def CANONICAL_BRANDS : List String :=
  [ "IHG (Inter Continental - Crowne Plaza - Holiday Inn - etc)"
  , "Hilton (NoMad - DoubleTree - Embassy Suites - etc)"
  , "Marriott (Ritz-Carlton - St. Regis - Westin - etc)"
  , "Hyatt (Regency - The Standard - Grand Hyatt - etc)" ]

/-- The `brands_valid` field validator (src/app.py lines 97-105).
`if not v` is Python emptiness of the list; `invalid` is the list of entries
outside `CANONICAL_BRANDS`.  Note that the source raises the constant message
`"Please select valid hotel brands only."` — the computed `invalid` list is
never interpolated into the f-string. -/
def brands_valid (v : List String) : Except String (List String) :=
  if v.isEmpty then
    .error "Please select at least one hotel brand."
  else
    let invalid := v.filter (fun b => ¬ b ∈ CANONICAL_BRANDS)
    if ¬ invalid.isEmpty then
      .error "Please select valid hotel brands only."
    else
      .ok v

/-- Python `str.strip()` with the default argument: remove leading and
trailing whitespace.  (Implemented over the character list so that it
kernel-reduces; `String.trim` agrees but is defined by well-founded recursion
on byte positions.) -/
def pyStrip (s : String) : String :=
  String.mk (((s.data.dropWhile Char.isWhitespace).reverse.dropWhile
    Char.isWhitespace).reverse)

/-- Python `str.title()` restricted to ASCII (the only case the program
meets): a letter is uppercased when the previous character is not a letter and
lowercased otherwise; non-letters pass through. -/
def pyTitle (s : String) : String :=
  String.mk ((s.data.foldl
    (fun (acc : List Char × Bool) c =>
      let c' := if c.isAlpha then (if acc.2 then c.toLower else c.toUpper) else c
      (c' :: acc.1, c.isAlpha))
    ([], false)).1.reverse)

/-- Modelled from the spec: the email grammar enforced by pydantic's
`EmailStr` (a third-party validator whose implementation is outside this
repository) — a `local@domain` shape with a non-empty local part and at least
one dot in the non-empty domain. -/
def email_valid (s : String) : Bool :=
  let cs := s.data
  let l := cs.takeWhile (· ≠ '@')
  let d := (cs.dropWhile (· ≠ '@')).drop 1
  cs.count '@' = 1 ∧ ¬ l.isEmpty ∧ ¬ d.isEmpty ∧ d.contains '.'

/-- Raw form fields as collected by the Streamlit form (src/app.py
lines 115-127): `date_input` yields `None` when unset, hence the `Option`s. -/
structure RawForm where
  destination : String
  email : String
  check_in : Option Nat
  check_out : Option Nat
  hotel_brands : List String
  deriving Repr, DecidableEq

/-- A validated, normalized `Submission` draft (src/app.py lines 71-105). -/
structure Draft where
  destination : String
  email : String
  check_in : Nat
  check_out : Nat
  hotel_brands : List String
  deriving Repr, DecidableEq

/-- One entry of the pydantic error report, as far as the handler's message
extraction (src/app.py lines 142-158) distinguishes them: a `ValueError`
raised by a field validator (carrying its message), the `EmailStr` type error,
or the type error for a `None` date. -/
inductive PyErr
  | valueError (msg : String)
  | emailError
  | dateTypeError
  deriving Repr, DecidableEq

/-- The pydantic error report for a raw form, in field declaration order
(`destination`, `email`, `check_in`, `check_out`, `hotel_brands`): pydantic v2
validates every field and collects all failures.  The `dates_valid` validator
(lines 88-94) only runs when `check_out` parsed, and only compares when
`check_in` is available in `values.data`. -/
def pyErrors (f : RawForm) : List PyErr :=
  (if (pyStrip f.destination).isEmpty then [.valueError "Please enter a destination."] else [])
  ++ (if email_valid f.email then [] else [.emailError])
  ++ (match f.check_in with
      | none => [.dateTypeError]
      | some _ => [])
  ++ (match f.check_out, f.check_in with
      | none, _ => [.dateTypeError]
      | some co, some ci =>
          if co ≤ ci then
            [.valueError "Please select a check-out date that is after your check-in date."]
          else []
      | some _, none => [])
  ++ (match brands_valid f.hotel_brands with
      | .error m => [.valueError m]
      | .ok _ => [])

/-- The handler's extraction of a user-facing message from the pydantic error
string (src/app.py lines 142-158): the first `"Value error,"` fragment wins;
otherwise the email type error maps to a fixed message; otherwise the fallback
takes the first sentence of the raw report (for a `None` date this is the
pydantic `"Input should be a valid date"` report; its exact wording depends on
the pydantic version and no claim turns on it, so it is embedded as that
constant). -/
def extract_message (errs : List PyErr) : String :=
  match errs.findSome? (fun e => match e with | .valueError m => some m | _ => none) with
  | some m => m
  | none =>
    if errs.contains .emailError then "Please enter a valid email address."
    else "Input should be a valid date"

/-- Validation of a raw form: the pydantic `Submission` model wrapped in the
handler's `try/except` (src/app.py lines 134-160).  On success the draft
carries the `dest_nonempty`-normalized destination (strip then title,
lines 79-85) and the parsed fields unchanged. -/
def validate (f : RawForm) : Except String Draft :=
  match pyErrors f, f.check_in, f.check_out with
  | [], some ci, some co =>
      .ok { destination := pyTitle (pyStrip f.destination)
          , email := f.email
          , check_in := ci
          , check_out := co
          , hotel_brands := f.hotel_brands }
  | [], _, _ => .error "Input should be a valid date"
  | errs, _, _ => .error (extract_message errs)

/-! ## Submission handler (src/app.py lines 128-211) -/

/-- An observable action of the submission handler, in program order.
`genId` is the `uuid.uuid4()` call, `insert` the Supabase
`hotel_requests.insert`, `setSession`/`redirect` the session-state write and
the query-parameter redirect of the success path, `toastError` a surfaced
error message. -/
inductive Event
  | toastError (msg : String)
  | genId (id : String)
  | insert (id : String)
  | setSession (id : String)
  | redirect (id : String)
  deriving Repr, DecidableEq

/-- The submission handler on a submitted form (src/app.py lines 128-211) as
the trace of its observable actions.  `freshId` stands for the value
`uuid.uuid4()` would produce, `insertOk` for whether the store insert
succeeds.  Validation failure sets `validation_error` and the whole persist
branch (guarded by `if not validation_error:`, line 162) is skipped. -/
def handle_submit (f : RawForm) (freshId : String) (insertOk : Bool) : List Event :=
  match validate f with
  | .error e => [.toastError e]
  | .ok _ =>
      [Event.genId freshId, Event.insert freshId]
      ++ (if insertOk then
            [Event.setSession freshId, Event.redirect freshId]
          else
            [Event.toastError "Unable to submit your request. Please try again."])

/-! ## Results poller (src/app.py lines 336-394) -/

/-- Terminal states of the polling state machine.  `wait_for_results` returns
`True` exactly on `READY` (carrying the tick of the successful status call)
and `False` on `TIMED_OUT` and on `STORE_ERROR` (an exception caught by the
function's outer `try/except`, line 386). -/
inductive PollOutcome
  | READY (t : Nat)
  | TIMED_OUT
  | STORE_ERROR
  deriving Repr, DecidableEq

/-- One status query: the Supabase `workbook_url` lookup of src/app.py
lines 347-352.  `data` is `resp.data`, a list of rows each carrying the row's
(nullable) `workbook_url`.  The code guards on `resp.data` being non-empty,
reads the first row, and computes `results_ready = bool(workbook_url)` —
Python truthiness, so `None` and the empty string are both not ready. -/
def results_ready (data : List (Option String)) : Bool :=
  match data with
  | [] => false
  | row :: _ =>
      match row with
      | none => false
      | some url => url ≠ ""

/-- Modelled from the spec: `ready` is true iff a non-null results reference
is present for the identifier (spec §4.2 `getStatus`; the spec makes presence
of a non-null value the sole readiness signal).  Stated for comparison with
`results_ready`, the readiness computed by the source. -/
def ready_spec (data : List (Option String)) : Bool :=
  match data with
  | [] => false
  | row :: _ => row.isSome

/-- The poll loop of `wait_for_results` (src/app.py lines 345-384), one
constructor application per iteration: while the current tick `t` satisfies
`t ≤ endTime` (the code's `while time.time() <= end_time`), issue the status
call at `t`; a raised store error aborts the whole function (`STORE_ERROR`);
a ready answer returns immediately (`READY t`); otherwise sleep `interval`
and continue at `t + interval`.  Falling out of the loop is `TIMED_OUT`.
The result pairs the outcome with the list of ticks at which status calls
were issued.  `fuel` bounds the recursion; `wait_for_results` passes enough
fuel that it is never exhausted for a positive interval. -/
def pollSteps (getStatus : Nat → Except Unit Bool) (endTime interval : Nat) :
    Nat → Nat → PollOutcome × List Nat
  | 0, _ => (.TIMED_OUT, [])
  | fuel + 1, t =>
      if t ≤ endTime then
        match getStatus t with
        | .error _ => (.STORE_ERROR, [t])
        | .ok true => (.READY t, [t])
        | .ok false =>
            let r := pollSteps getStatus endTime interval fuel (t + interval)
            (r.1, t :: r.2)
      else
        (.TIMED_OUT, [])

/-- `wait_for_results(req_id, timeout_seconds, poll_interval)`
(src/app.py lines 336-388), with wall-clock time abstracted to ticks starting
at 0: `end_time = start + timeout_seconds`, and each iteration advances the
clock by `poll_interval`.  `getStatus t` is the status query issued at tick
`t` (`.error ()` for a raised store exception). -/
def wait_for_results (getStatus : Nat → Except Unit Bool)
    (timeout_seconds : Nat := 600) (poll_interval : Nat := 10) :
    PollOutcome × List Nat :=
  pollSteps getStatus timeout_seconds poll_interval (timeout_seconds / poll_interval + 2) 0

/-! ## Tracking view and session marker (src/app.py lines 390-398, 747-748) -/

/-- What the results view shows after the poll phase: `READY` when the
`vw_top_results` query returned rows (the table is rendered), `PENDING` when
it returned none (the "No results found for your request yet" message). -/
inductive ViewState
  | PENDING
  | READY
  deriving Repr, DecidableEq

/-- The settle step of the tracking view (src/app.py lines 396-398, 747-748):
after the poll phase the view fetches the result rows for the identifier and
renders from the current store state alone. -/
def settle_view {α : Type} (rows : List α) : ViewState :=
  if rows.isEmpty then .PENDING else .READY

/-- The outcome of one rendering of the tracking view: what it displayed, the
per-identifier session marker afterwards, and how many status calls its poll
phase issued. -/
structure ViewRun where
  outcome : ViewState
  markerAfter : Bool
  pollCalls : Nat
  deriving Repr, DecidableEq

/-- One rendering of the tracking view for an identifier (src/app.py
lines 390-398): if the per-identifier session marker
(`results_checked_{req_id}`) is unset, run `wait_for_results` with the
default bounds and set the marker; otherwise skip the waiting loop entirely.
Either way, settle from the current store rows. -/
def tracking_view {α : Type} (marker : Bool) (getStatus : Nat → Except Unit Bool)
    (rows : List α) : ViewRun :=
  { outcome := settle_view rows
  , markerAfter := true
  , pollCalls := if marker then 0 else (wait_for_results getStatus).2.length }

/-! ## Results presenter: sort column resolution (src/app.py lines 459-601) -/

/-- `sort_col_map` (src/app.py lines 580-587): display column → numeric
column used by `sort_values`. -/
def sort_col_map : List (String × String) :=
  [ ("distance", "distance_numeric")
  , ("rating", "rating_numeric")
  , ("reviews", "reviews_numeric")
  , ("price", "price_numeric")
  , ("discount", "discount_numeric")
  , ("retail price", "retail_price_numeric") ]

/-- The columns of the dataframe at the moment `sort_values` runs
(src/app.py line 589), traced through the pipeline: `keep_cols`
(lines 416-425), then `brand_key` (line 447), `rating_value` (line 471),
`rating` (line 473), the three numeric columns of lines 477-479, the drop of
`rating_float` (line 485) and the display renames (lines 488-493). -/
def df_columns_at_sort : List String :=
  [ "name", "hotel brand", "distance", "price", "discount", "retail price"
  , "reviews", "booking link", "price_numeric", "retail_price_numeric"
  , "brand_key", "rating_value", "rating", "distance_numeric"
  , "discount_numeric", "reviews_numeric" ]

/-- The sort step (src/app.py lines 588-589): resolve the session's sort key
through `sort_col_map` (defaulting to the key itself, as `dict.get(k, k)`),
then sort by that column — `sort_values` raises a `KeyError`, caught by the
view's outer handler (line 749), when the column does not exist. -/
def apply_sort (cols : List String) (sortBy : String) : Except String String :=
  let actual := ((sort_col_map.lookup sortBy).getD sortBy)
  if actual ∈ cols then .ok actual
  else .error ("KeyError: " ++ actual)

/-! ## Results presenter: star rating rendering (src/app.py lines 459-468) -/

/-- Python `int()` truncation toward zero on a rational. -/
def ratTrunc (q : ℚ) : ℤ :=
  if q < 0 then ⌈q⌉ else ⌊q⌋

/-- A string of `n` copies of a character, with Python's convention that a
negative repeat count yields the empty string (`Int.toNat` of a negative
integer is 0). -/
def starRepeat (c : Char) (n : ℤ) : String :=
  String.mk (List.replicate n.toNat c)

/-- `rating_to_stars` (src/app.py lines 459-468).  The input is the value of
`float(rating)`: `none` when `float()` (or the subsequent arithmetic, as for
`nan`) raises — the bare `except` then returns five empty stars.  Otherwise
`full_stars = int(rating_float)` truncates toward zero, a half star is added
when the remainder is at least one half, and `5 - full_stars - half_star`
empty stars follow (empty when that count is negative). -/
def rating_to_stars (rating : Option ℚ) : String :=
  match rating with
  | none => "☆☆☆☆☆"
  | some q =>
      let full_stars : ℤ := ratTrunc q
      let half_star : ℤ := if (1 : ℚ) / 2 ≤ q - full_stars then 1 else 0
      let empty_stars : ℤ := 5 - full_stars - half_star
      starRepeat '⭐' full_stars
        ++ (if half_star = 1 then "✨" else "")
        ++ starRepeat '☆' empty_stars

/-! ## Theorems settling the claims -/

/-- C1: for a poll loop started with poll interval 10 and timeout bound 30,
where the status query reports not-ready at ticks t = 0, 10, 20 and ready at
t = 30, the poller transitions to `READY` at t = 30 having made exactly 4
status calls — the loop condition `while time.time() <= end_time` admits a
tick at exactly the timeout boundary. -/
theorem C1_ready_at_timeout_boundary :
    wait_for_results (fun t => .ok (t == 30)) 30 10
      = (.READY 30, [0, 10, 20, 30]) ∧
    (wait_for_results (fun t => .ok (t == 30)) 30 10).2.length = 4 := by
  constructor <;> rfl

/-- Helper for the timeout claims: when the status query answers not-ready at
every tick up to `endTime`, the poll loop times out, and every status call it
issues happens at a tick at most `endTime`. -/
theorem pollSteps_never_ready (getStatus : Nat → Except Unit Bool)
    (endTime interval : Nat)
    (h : ∀ t, t ≤ endTime → getStatus t = .ok false) :
    ∀ fuel t, (pollSteps getStatus endTime interval fuel t).1 = .TIMED_OUT ∧
      ∀ c ∈ (pollSteps getStatus endTime interval fuel t).2, c ≤ endTime := by
  intro fuel
  induction fuel with
  | zero =>
      intro t
      exact ⟨rfl, by intro c hc; simp [pollSteps] at hc⟩
  | succ n ih =>
      intro t
      by_cases ht : t ≤ endTime
      · have hs := h t ht
        constructor
        · simp only [pollSteps, if_pos ht, hs]
          exact (ih (t + interval)).1
        · simp only [pollSteps, if_pos ht, hs]
          intro c hc
          rcases List.mem_cons.mp hc with hc | hc
          · exact hc ▸ ht
          · exact (ih (t + interval)).2 c hc
      · constructor
        · simp only [pollSteps, if_neg ht]
        · simp only [pollSteps, if_neg ht]
          intro c hc
          simp at hc

/-- C2: if the status query never reports ready within the timeout bound of
600 time-units, the poller (run with its default bounds, timeout 600 and
interval 10) reaches the `TIMED_OUT` terminal state, and it issues no store
call after the bound: every status call it made was at a tick at most 600,
and the returned call list is the complete record of its store activity. -/
theorem C2_timeout_then_no_more_calls (getStatus : Nat → Except Unit Bool)
    (h : ∀ t, t ≤ 600 → getStatus t = .ok false) :
    (wait_for_results getStatus).1 = .TIMED_OUT ∧
    ∀ c ∈ (wait_for_results getStatus).2, c ≤ 600 :=
  pollSteps_never_ready getStatus 600 10 h (600 / 10 + 2) 0

/-- Witness for C2 at the constant not-ready status function. -/
theorem C2_timeout_then_no_more_calls_witness :
    (wait_for_results (fun _ => .ok false)).1 = .TIMED_OUT ∧
    ∀ c ∈ (wait_for_results (fun _ => .ok false)).2, c ≤ 600 :=
  C2_timeout_then_no_more_calls (fun _ => .ok false) (fun _ _ => rfl)

/-- C4 counterexample: a store row whose `workbook_url` is the present,
non-null empty string is not reported ready by the code (`bool("")` is
`False`), although the claim's readiness criterion — a non-null results
reference is present — holds for it. -/
theorem C4_counterexample :
    results_ready [some ""] = false ∧ ready_spec [some ""] = true := by
  constructor <;> rfl

/-- C4 amended: the readiness check reports ready iff a `workbook_url` value
is present, non-null and non-empty (Python truthiness of the string), and it
is computed from the `workbook_url` column alone — the query of src/app.py
line 347 selects only that column, so the `processed` flag is not consulted. -/
theorem C4_amended_ready_iff (data : List (Option String)) :
    results_ready data = true ↔
      ∃ url rest, data = some url :: rest ∧ url ≠ "" := by
  match data with
  | [] => simp [results_ready]
  | none :: rest => simp [results_ready]
  | some url :: rest =>
      simp only [results_ready, decide_eq_true_eq]
      constructor
      · intro h
        exact ⟨url, rest, rfl, h⟩
      · rintro ⟨u, r, heq, hne⟩
        cases heq
        exact hne

/-- Witness for C4's amended theorem at a concrete non-empty reference. -/
theorem C4_amended_ready_iff_witness :
    results_ready [some "https://example.com/wb"] = true :=
  (C4_amended_ready_iff [some "https://example.com/wb"]).mpr
    ⟨"https://example.com/wb", [], rfl, by decide⟩

/-- C6, evaluated on the code: the empty selection fails with the
no-brand-selected message; a selection with an entry outside the canonical
list fails, but with the constant message
`"Please select valid hotel brands only."` — the error is identical for
different offending values and does not contain the offending value, because
the computed `invalid` list is never interpolated into the message
(src/app.py line 104). -/
theorem C6_unknown_brand_message_generic :
    brands_valid [] = .error "Please select at least one hotel brand." ∧
    brands_valid ["Ritz"] = .error "Please select valid hotel brands only." ∧
    brands_valid ["Ritz"] = brands_valid ["Fake Brand"] ∧
    ¬ List.IsInfix "Ritz".data "Please select valid hotel brands only.".data := by
  refine ⟨rfl, rfl, rfl, ?_⟩
  decide

/-- C8, evaluated on the code: selecting the `rating` sort key resolves
through `sort_col_map` to the column name `rating_numeric`, but the dataframe
at the sort step has no such column — the numeric rating is stored under
`rating_value` (src/app.py line 471) — so `sort_values` raises a `KeyError`
(caught by the view's outer handler, which displays an error instead of the
sorted table), while e.g. the `price` key resolves to an existing column. -/
theorem C8_rating_sort_key_missing :
    ((sort_col_map.lookup "rating").getD "rating") = "rating_numeric" ∧
    ¬ "rating_numeric" ∈ df_columns_at_sort ∧
    "rating_value" ∈ df_columns_at_sort ∧
    apply_sort df_columns_at_sort "rating" = .error "KeyError: rating_numeric" ∧
    apply_sort df_columns_at_sort "price" = .ok "price_numeric" := by
  refine ⟨rfl, by decide, by decide, ?_, ?_⟩ <;> rfl

/-- C9: a store row whose `workbook_url` field is a present, non-null empty
string is treated as not ready — readiness is Python truthiness-coercion of
`workbook_url`, so a missing row and a null or empty value are all not ready,
and any non-empty value is ready. -/
theorem C9_empty_string_not_ready :
    results_ready [some ""] = false ∧
    (∀ rest, results_ready (some "" :: rest) = false) ∧
    (∀ rest, results_ready (none :: rest) = false) ∧
    results_ready [] = false ∧
    (∀ (url : String) (rest : List (Option String)),
       url ≠ "" → results_ready (some url :: rest) = true) := by
  refine ⟨rfl, fun rest => rfl, fun rest => rfl, rfl, ?_⟩
  intro url rest hne
  simpa [results_ready] using hne

/-- Witness for C9's non-empty case at a concrete reference. -/
theorem C9_empty_string_not_ready_witness :
    results_ready [some "x"] = true :=
  C9_empty_string_not_ready.2.2.2.2 "x" [] (by decide)

/-- C3: the waiting poll loop runs at most once per client session.  With the
per-identifier session marker set, a rendering of the tracking view issues no
poll-loop status calls and settles directly from the current store rows; any
rendering leaves the marker set, so a second rendering after a first one
(whatever the store did in between) issues no poll calls; and since the store
only ever gains rows for an identifier (`rows` a sublist of the later
`rows'`), a view that settled `READY` never settles `PENDING` later. -/
theorem C3_poll_at_most_once_per_session (getStatus : Nat → Except Unit Bool)
    (rows rows' : List Nat) (hgrow : rows.Sublist rows') :
    (tracking_view true getStatus rows).pollCalls = 0 ∧
    (tracking_view true getStatus rows).outcome = settle_view rows ∧
    (∀ m : Bool, (tracking_view m getStatus rows).markerAfter = true) ∧
    (tracking_view (tracking_view false getStatus rows).markerAfter
        getStatus rows').pollCalls = 0 ∧
    (settle_view rows = .READY → settle_view rows' = .READY) := by
  refine ⟨rfl, rfl, fun m => rfl, rfl, ?_⟩
  intro hr
  cases h' : rows' with
  | nil =>
      have hnil : rows = [] := List.sublist_nil.mp (h' ▸ hgrow)
      rw [hnil] at hr
      exact absurd hr (by decide)
  | cons a l => rfl

/-- Witness for C3 at a concrete store history (one row, then two). -/
theorem C3_poll_at_most_once_per_session_witness :
    (tracking_view true (fun _ => .ok false) [1]).pollCalls = 0 ∧
    (tracking_view true (fun _ => .ok false) [1]).outcome = settle_view [1] ∧
    (∀ m : Bool, (tracking_view m (fun _ => .ok false) [1]).markerAfter = true) ∧
    (tracking_view (tracking_view false (fun _ => .ok false) [1]).markerAfter
        (fun _ => .ok false) [1, 2]).pollCalls = 0 ∧
    (settle_view [1] = .READY → settle_view [1, 2] = .READY) :=
  C3_poll_at_most_once_per_session (fun _ => .ok false) [1] [1, 2]
    (by decide)

/-- Helper for C5: a non-empty selection drawn from the canonical list passes
the `brands_valid` validator unchanged. -/
theorem brands_valid_ok (v : List String) (hne : v ≠ [])
    (hall : ∀ b ∈ v, b ∈ CANONICAL_BRANDS) :
    brands_valid v = .ok v := by
  have h1 : v.isEmpty = false := by
    cases v with
    | nil => exact absurd rfl hne
    | cons a l => rfl
  simp [brands_valid, h1]
  exact hall

/-- C5: every well-formed input — both dates present with
`check_out > check_in`, every chosen brand in the canonical set and at least
one chosen, destination non-blank after trimming, email accepted by the email
grammar — validates successfully, and the resulting draft's destination is
the trimmed, title-cased input destination (the other fields pass through
unchanged). -/
theorem C5_wellformed_input_accepted (f : RawForm) (ci co : Nat)
    (hci : f.check_in = some ci) (hco : f.check_out = some co)
    (hlt : ci < co)
    (hdest : (pyStrip f.destination).isEmpty = false)
    (hemail : email_valid f.email = true)
    (hne : f.hotel_brands ≠ [])
    (hbrands : ∀ b ∈ f.hotel_brands, b ∈ CANONICAL_BRANDS) :
    validate f = .ok { destination := pyTitle (pyStrip f.destination)
                     , email := f.email
                     , check_in := ci
                     , check_out := co
                     , hotel_brands := f.hotel_brands } := by
  have hb := brands_valid_ok f.hotel_brands hne hbrands
  have h3 : ¬ co ≤ ci := not_le.mpr hlt
  have herr : pyErrors f = [] := by
    simp [pyErrors, hdest, hemail, hci, hco, hb, h3]
  simp [validate, herr, hci, hco]

/-- Witness for C5 at a concrete well-formed submission. -/
theorem C5_wellformed_input_accepted_witness :
    validate { destination := "  paris "
             , email := "a@b.com"
             , check_in := some 1
             , check_out := some 3
             , hotel_brands := ["Hilton (NoMad - DoubleTree - Embassy Suites - etc)"] }
      = .ok { destination := pyTitle (pyStrip "  paris ")
            , email := "a@b.com"
            , check_in := 1
            , check_out := 3
            , hotel_brands := ["Hilton (NoMad - DoubleTree - Embassy Suites - etc)"] } :=
  C5_wellformed_input_accepted _ 1 3 rfl rfl (by decide) (by decide) (by decide)
    (by decide) (by decide)

/-- C7: when validation of the raw form fields fails, the submission handler
surfaces only the mapped error message: its event trace is exactly the one
error toast — no identifier generation, no store insert, no session write and
no redirect occur. -/
theorem C7_no_side_effects_on_validation_failure (f : RawForm) (freshId : String)
    (insertOk : Bool) (e : String) (hval : validate f = .error e) :
    handle_submit f freshId insertOk = [.toastError e] ∧
    ∀ ev ∈ handle_submit f freshId insertOk, ∀ id : String,
      ev ≠ .genId id ∧ ev ≠ .insert id ∧ ev ≠ .setSession id ∧ ev ≠ .redirect id := by
  have h1 : handle_submit f freshId insertOk = [.toastError e] := by
    unfold handle_submit
    rw [hval]
  refine ⟨h1, ?_⟩
  rw [h1]
  intro ev hev id
  have : ev = .toastError e := List.mem_singleton.mp hev
  subst this
  exact ⟨by simp, by simp, by simp, by simp⟩

/-- Witness for C7 at a concrete form with a blank destination. -/
theorem C7_no_side_effects_on_validation_failure_witness :
    handle_submit { destination := "   "
                  , email := "a@b.com"
                  , check_in := some 1
                  , check_out := some 3
                  , hotel_brands := CANONICAL_BRANDS } "fresh-id" true
      = [.toastError "Please enter a destination."] ∧
    ∀ ev ∈ handle_submit { destination := "   "
                         , email := "a@b.com"
                         , check_in := some 1
                         , check_out := some 3
                         , hotel_brands := CANONICAL_BRANDS } "fresh-id" true,
      ∀ id : String,
        ev ≠ .genId id ∧ ev ≠ .insert id ∧ ev ≠ .setSession id ∧ ev ≠ .redirect id :=
  C7_no_side_effects_on_validation_failure _ "fresh-id" true
    "Please enter a destination." rfl

/-- Helper for C10: the length of a repeated-character string. -/
theorem starRepeat_length (c : Char) (n : ℤ) : (starRepeat c n).length = n.toNat :=
  List.length_replicate _ _

/-- Helper for C10: the symbol count of the rendered star string as a
function of the truncated rating and the half-star test. -/
theorem rating_to_stars_length (q : ℚ) :
    (rating_to_stars (some q)).length =
      (ratTrunc q).toNat
        + (if (1 : ℚ) / 2 ≤ q - (ratTrunc q : ℚ) then 1 else 0)
        + (5 - ratTrunc q
            - (if (1 : ℚ) / 2 ≤ q - (ratTrunc q : ℚ) then 1 else 0)).toNat := by
  have hs1 : ("✨" : String).length = 1 := by decide
  have hs0 : ("" : String).length = 0 := by decide
  by_cases hh : (1 : ℚ) / 2 ≤ q - (ratTrunc q : ℚ)
  · simp only [rating_to_stars, if_pos hh, String.length_append, starRepeat_length,
      if_true, if_false, hs1, hs0]
  · simp only [rating_to_stars, if_neg hh, String.length_append, starRepeat_length,
      if_true, if_false, if_neg (show ¬ (0 : ℤ) = 1 by decide), hs1, hs0]

/-- C10 counterexample: the out-of-range rating 7 — explicitly within the
claim's scope — renders as seven full stars, not a five-symbol string:
`int(7.0) = 7` full stars and `"☆" * (5 - 7)` is empty. -/
theorem C10_counterexample :
    (rating_to_stars (some 7)).length = 7 ∧ (rating_to_stars (some 7)).length ≠ 5 := by
  have hc : ((7 : ℤ) : ℚ) = (7 : ℚ) := by norm_num
  have h7 : ratTrunc (7 : ℚ) = 7 := by
    rw [ratTrunc, if_neg (by norm_num)]
    rw [← hc, Int.floor_intCast]
  have hcond : ¬ ((1 : ℚ) / 2 ≤ (7 : ℚ) - ((7 : ℤ) : ℚ)) := by
    rw [hc]; norm_num
  have hlen : (rating_to_stars (some 7)).length = 7 := by
    rw [rating_to_stars_length, h7]
    simp only [if_neg hcond]
    decide
  exact ⟨hlen, by rw [hlen]; decide⟩

/-- C10 amended: the star renderer is total by construction (the bare
`except` turns any parse or arithmetic failure into the five-empty-star
string, embedded as the `none` case), and it returns a five-symbol star
string for every parseable rating in the range 0 to 5; out-of-range numeric
ratings, however, yield strings of other lengths. -/
theorem C10_amended_stars_in_range (q : ℚ) (h0 : 0 ≤ q) (h5 : q ≤ 5) :
    (rating_to_stars (some q)).length = 5 ∧ rating_to_stars none = "☆☆☆☆☆" := by
  refine ⟨?_, rfl⟩
  have htr : ratTrunc q = ⌊q⌋ := if_neg (not_lt.mpr h0)
  have hn0 : 0 ≤ ⌊q⌋ := Int.floor_nonneg.mpr h0
  have hfl : (⌊q⌋ : ℚ) ≤ q := Int.floor_le q
  have hn5 : ⌊q⌋ ≤ 5 := by
    have h : (⌊q⌋ : ℚ) ≤ 5 := le_trans hfl h5
    exact_mod_cast h
  rw [rating_to_stars_length, htr]
  by_cases hhalf : (1 : ℚ) / 2 ≤ q - (⌊q⌋ : ℚ)
  · have hlt5 : ⌊q⌋ < 5 := by
      rcases lt_or_eq_of_le hn5 with h | h
      · exact h
      · exfalso
        have hq : q = 5 := le_antisymm h5 (by exact_mod_cast h ▸ hfl)
        rw [h, hq] at hhalf
        norm_num at hhalf
    simp only [if_pos hhalf]
    omega
  · simp only [if_neg hhalf]
    omega

/-- Witness for C10's amended theorem at the concrete rating 4.5. -/
theorem C10_amended_stars_in_range_witness :
    (rating_to_stars (some (9 / 2))).length = 5 ∧ rating_to_stars none = "☆☆☆☆☆" :=
  C10_amended_stars_in_range (9 / 2) (by norm_num) (by norm_num)

end HotelForm
